import Mathlib

/-!
Verification of the request-batching coordinator specified for this repository.
Only the test file `python/ray/serve/tests/test_batching.py` is present in the
sources, so the coordinator itself (decorator validation, batch formation,
argument packing, scalar and streaming dispatch) is modelled from the
specification, and the user functions exercised by the claims are translated
from the test file.
-/

namespace Batching

/-- Errors that can reach a caller.  `zeroDivision` models the `1 / 0` raised by
the test user functions, `runtime msg` models `RuntimeError(msg)`,
`shapeMismatch` is the coordinator's error for a malformed return value, and
`arityMismatch` / `kwargsMismatch` / `bindingError` are the per-batch failures
of argument packing. -/
inductive Err where
  | zeroDivision
  | runtime (msg : String)
  | shapeMismatch
  | arityMismatch
  | kwargsMismatch
  | bindingError
deriving DecidableEq, Repr

/-- Terminal outcome observed by one caller in scalar-batch mode. -/
inductive Outcome (ρ : Type) where
  | success (r : ρ)
  | failure (e : Err)
deriving DecidableEq, Repr

/-- Value returned by a user function in scalar mode: a genuine Python list, or
some non-list value (such as the `len(requests)` returned in
`test_batching_exception`). -/
inductive RetVal (ρ : Type) where
  | list (xs : List ρ)
  | notAList
deriving DecidableEq, Repr

/-- Result of invoking the user function on a batch: it either returns a value
or raises an error. -/
inductive UserReturn (ρ : Type) where
  | returned (v : RetVal ρ)
  | raised (e : Err)
deriving DecidableEq, Repr

/-- Modelled from the spec: scalar-batch dispatch (section 4.4).  The user
function is invoked once on the whole batch; if it raises, the error is
broadcast to every request; if it returns a non-list or a list whose length
differs from the batch size, every request fails with a shape-mismatch error;
otherwise request `i` receives element `i` of the returned list. -/
def dispatchScalar (f : List β → UserReturn ρ) (batch : List β) : List (Outcome ρ) :=
  match f batch with
  | .raised e => batch.map (fun _ => .failure e)
  | .returned .notAList => batch.map (fun _ => .failure .shapeMismatch)
  | .returned (.list rs) =>
      if rs.length = batch.length then rs.map .success
      else batch.map (fun _ => .failure .shapeMismatch)

/-- Fuel-driven worker for `formBatches`; the fuel (the queue length) is enough
because every step removes at least one request when `mbs ≥ 1`. -/
def formBatchesAux (mbs : Nat) : Nat → List β → List (List β)
  | 0, _ => []
  | _ + 1, [] => []
  | fuel + 1, x :: q => (x :: q).take mbs :: formBatchesAux mbs fuel ((x :: q).drop mbs)

/-- Modelled from the spec: batch formation (section 4.3, rule 1) when the whole
queue is already available — repeatedly take the first `max_batch_size`
requests.  Meaningful for `mbs ≥ 1`, which decorator validation guarantees. -/
def formBatches (mbs : Nat) (q : List β) : List (List β) :=
  formBatchesAux mbs q.length q

/-- Modelled from the spec: the dispatch condition of the formation policy
(section 4.3).  A non-empty held prefix is dispatched when it has reached
`max_batch_size` or when `batch_wait_timeout` has elapsed since the first
request of the prefix arrived.  Time is in abstract units. -/
def shouldDispatch (mbs timeout firstArrival now qlen : Nat) : Bool :=
  decide (1 ≤ qlen) && (decide (mbs ≤ qlen) || decide (firstArrival + timeout ≤ now))

/-- Modelled from the spec: the zero-timeout batcher loop (section 4.3 edge
case).  Each round dispatches the currently available prefix (capped at
`max_batch_size`); the requests listed in the next entry of `arrivals` arrive
while that dispatch is executing and join the queue for the following round.
Returns the dispatched batches with their per-caller outcomes, in order. -/
def runLoop (f : List β → UserReturn ρ) (mbs : Nat) :
    List β → List (List β) → List (List β × List (Outcome ρ))
  | queue, [] => (formBatches mbs queue).map (fun b => (b, dispatchScalar f b))
  | [], a :: rest => runLoop f mbs a rest
  | x :: queue, a :: rest =>
      ((x :: queue).take mbs, dispatchScalar f ((x :: queue).take mbs)) ::
        runLoop f mbs ((x :: queue).drop mbs ++ a) rest

/-- Translated from the test user functions of `test_batch_size_multiple_*`:
return the batch itself, but raise a division by zero when some element is the
string `"raise"`. -/
def echoOrRaise (requests : List String) : UserReturn String :=
  if requests.contains "raise" then .raised .zeroDivision
  else .returned (.list requests)

/-- Translated from `BatchingExample.handle_batch` in `test_batching`:
increment the per-dispatch counter and return `[count] * batch_size`. -/
def handleBatchCounter (count : Nat) (requests : List β) : Nat × List Nat :=
  (count + 1, List.replicate requests.length (count + 1))

/-- The values received, in enqueue order, by `n` concurrent callers of the
counter function when the batcher forms batches of at most `mbs` from the
fully available queue and dispatches them in order. -/
def runCounter (mbs n : Nat) : List Nat :=
  ((formBatches mbs (List.replicate n 0)).foldl
      (fun st b =>
        let out := handleBatchCounter st.1 b
        (out.1, st.2 ++ out.2))
      ((0, []) : Nat × List Nat)).2

/-- A pending request's calling convention: the positional values in order, and
the keyword bindings in the order the caller wrote them. -/
structure CallArgs (α : Type) where
  args : List α
  kwargs : List (String × α)
deriving DecidableEq, Repr

/-- Keys of a keyword-binding list, in order. -/
def keysOf (kw : List (String × α)) : List String :=
  kw.map Prod.fst

/-- Two key lists name the same set of keywords. -/
def sameKeySet (a b : List String) : Bool :=
  a.all (fun k => b.contains k) && b.all (fun k => a.contains k)

/-- Column of values supplied for positional slot `p` across the batch, in
batch order. -/
def posColumn (batch : List (CallArgs α)) (p : Nat) : List α :=
  batch.filterMap (fun r => r.args.get? p)

/-- Column of values supplied for keyword `k` across the batch, in batch
order. -/
def kwColumn (batch : List (CallArgs α)) (k : String) : List α :=
  batch.filterMap (fun r => r.kwargs.lookup k)

/-- Modelled from the spec: argument packing (section 4.2).  Every request in a
batch must supply the same positional arity, and the keyword keys must be
identical for every member; a mismatch is a per-batch failure.  The batcher
does not normalize between the positional and the keyword form. -/
def packArgs (batch : List (CallArgs α)) :
    Except Err (List (List α) × List (String × List α)) :=
  match batch with
  | [] => .ok ([], [])
  | r0 :: rest =>
      if rest.all (fun r => r.args.length == r0.args.length) then
        if rest.all (fun r => sameKeySet (keysOf r.kwargs) (keysOf r0.kwargs)) then
          .ok ((List.range r0.args.length).map (posColumn (r0 :: rest)),
               (keysOf r0.kwargs).map (fun k => (k, kwColumn (r0 :: rest) k)))
        else .error .kwargsMismatch
      else .error .arityMismatch

/-- Modelled from the spec: binding the packed columns to the user function's
parameter list.  Positional columns fill the leading parameters; the remaining
parameters are taken by name from the keyword columns; a parameter supplied
both ways, an unknown keyword, or a missing parameter is a binding failure. -/
def bindParams (params : List String) (pos : List (List α))
    (kw : List (String × List α)) : Option (List (List α)) :=
  if params.length < pos.length then none
  else if (params.take pos.length).any (fun p => (kw.lookup p).isSome) then none
  else if kw.any (fun kv => !((params.drop pos.length).contains kv.1)) then none
  else ((params.drop pos.length).mapM (fun p => kw.lookup p)).map (fun cols => pos ++ cols)

/-- Translated from the two-parameter user function of `test_batch_args_kwargs`
(`(key1, key2) → [(key1[i], key2[i]) for i]`), including the packing and
binding the coordinator performs before the call. -/
def pairUserCall (batch : List (CallArgs α)) : UserReturn (α × α) :=
  match packArgs batch with
  | .error e => .raised e
  | .ok (pos, kw) =>
      match bindParams ["key1", "key2"] pos kw with
      | none => .raised .bindingError
      | some [c1, c2] => .returned (.list (c1.zip c2))
      | some _ => .raised .bindingError

/-- Scalar dispatch of the two-parameter test function on a batch of calls. -/
def dispatchPair (batch : List (CallArgs α)) : List (Outcome (α × α)) :=
  dispatchScalar pairUserCall batch

/-- A finite run of a streaming user function: the lists it yielded in order,
and `some e` when it raised `e` after those yields (`none`: it finished
normally). -/
structure GenRun (ρ : Type) where
  yields : List (List ρ)
  raised : Option Err
deriving DecidableEq, Repr

/-- What one caller observes of its lazy result sequence: the items delivered
normally, then either a normal end (`none`) or an error raised on the next
advance (`some e`); after the error the sequence ends. -/
structure CallerStream (ρ : Type) where
  items : List ρ
  error : Option Err
deriving DecidableEq, Repr

/-- Modelled from the spec: consumption of the user generator's yields
(section 4.4, streaming mode).  Yields of length equal to the batch size are
routed onward; the first yield of any other length stops consumption with a
shape-mismatch error. -/
def routeYields (b : Nat) : List (List ρ) → List (List ρ) × Option Err
  | [] => ([], none)
  | ys :: rest =>
      if ys.length = b then
        let out := routeYields b rest
        (ys :: out.1, out.2)
      else ([], some .shapeMismatch)

/-- Modelled from the spec: the lists successfully fanned out for a generator
run, with the terminal error (a shape mismatch stops consumption; otherwise
an error raised by the generator itself is broadcast). -/
def consumeGen (b : Nat) (run : GenRun ρ) : List (List ρ) × Option Err :=
  let out := routeYields b run.yields
  match out.2 with
  | some e => (out.1, some e)
  | none => (out.1, run.raised)

/-- Element `i` of every list, in order. -/
def column (i : Nat) (ys : List (List ρ)) : List ρ :=
  ys.filterMap (fun y => y[i]?)

/-- Modelled from the spec: the lazy sequence observed by caller `i` of a batch
of size `b` — element `i` of every routed yield in yield order, terminated
normally or by the broadcast error. -/
def callerStream (b : Nat) (run : GenRun ρ) (i : Nat) : CallerStream ρ :=
  let out := consumeGen b run
  ⟨column i out.1, out.2⟩

/-- A Python value passed as a configuration argument of the decorator. -/
inductive PyVal where
  | int (n : Int)
  | float (q : Rat)
  | str (s : String)
deriving DecidableEq, Repr

/-- Configuration failure at decoration time. -/
inductive ConfigErr where
  | typeError (msg : String)
  | valueError (msg : String)
deriving DecidableEq, Repr

/-- Integer value of a configuration argument, when it is an `int` or an
integer-valued `float`. -/
def asIntegral : PyVal → Option Int
  | .int n => some n
  | .float q => if q.den = 1 then some q.num else none
  | .str _ => none

/-- Numeric value of a configuration argument, when it is an `int` or a
`float`. -/
def asNumeric : PyVal → Option Rat
  | .int n => some ((n : Int) : Rat)
  | .float q => some q
  | .str _ => none

/-- Modelled from the spec: decoration-time validation (section 4.1).  The
target must be a cooperative (async) function; `max_batch_size` must be an
integral value and positive; `batch_wait_timeout_s` must be numeric and
non-negative (zero allowed). -/
def validateBatchConfig (targetIsAsync : Bool) (mbs : PyVal) (timeout : PyVal) :
    Except ConfigErr (Nat × Rat) :=
  if !targetIsAsync then
    .error (.typeError "functions decorated with serve.batch must be async def")
  else
    match asIntegral mbs with
    | none => .error (.typeError "max_batch_size must be integral")
    | some n =>
        if n ≤ 0 then .error (.valueError "max_batch_size must be positive")
        else
          match asNumeric timeout with
          | none => .error (.typeError "batch_wait_timeout_s must be numeric")
          | some q =>
              if q < 0 then .error (.valueError "batch_wait_timeout_s must be non-negative")
              else .ok (n.toNat, q)

/-- Whether validation failed with a type error. -/
def isTypeError : Except ConfigErr (Nat × Rat) → Bool
  | .error (.typeError _) => true
  | _ => false

/-- Whether validation failed with a value error. -/
def isValueError : Except ConfigErr (Nat × Rat) → Bool
  | .error (.valueError _) => true
  | _ => false

theorem routeYields_of_good (b : Nat) (ys : List (List ρ))
    (h : ∀ y ∈ ys, y.length = b) : routeYields b ys = (ys, none) := by
  induction ys with
  | nil => rfl
  | cons y ys ih =>
      have hy : y.length = b := h y (List.mem_cons_self y ys)
      have hr := ih (fun z hz => h z (List.mem_cons_of_mem y hz))
      simp [routeYields, hy, hr]

theorem routeYields_stops_at_bad (b : Nat) (pre tail : List (List ρ)) (bad : List ρ)
    (h : ∀ y ∈ pre, y.length = b) (hbad : bad.length ≠ b) :
    routeYields b (pre ++ bad :: tail) = (pre, some Err.shapeMismatch) := by
  induction pre with
  | nil => simp [routeYields, hbad]
  | cons y pre ih =>
      have hy : y.length = b := h y (List.mem_cons_self y pre)
      have hr := ih (fun z hz => h z (List.mem_cons_of_mem y hz))
      simp [routeYields, hy, hr]

theorem column_spec (i : Nat) (ys : List (List ρ)) (h : ∀ y ∈ ys, i < y.length) :
    (column i ys).length = ys.length ∧
    ∀ (j : Nat), (column i ys)[j]? = ys[j]?.bind (fun y => y[i]?) := by
  induction ys with
  | nil =>
      refine ⟨rfl, fun j => ?_⟩
      simp [column]
  | cons y ys ih =>
      have hy : i < y.length := h y (List.mem_cons_self y ys)
      have hsome : y[i]? = some (y.get ⟨i, hy⟩) := by
        rw [List.getElem?_eq_getElem hy]
        rfl
      have hcons : column i (y :: ys) = y.get ⟨i, hy⟩ :: column i ys := by
        simp [column, List.filterMap_cons, hsome]
      obtain ⟨ih1, ih2⟩ := ih (fun z hz => h z (List.mem_cons_of_mem y hz))
      refine ⟨by simp [hcons, ih1], fun j => ?_⟩
      cases j with
      | zero => simp [hcons, hsome]
      | succ j => simpa [hcons] using ih2 j

/-- C1: with max_batch_size 5 and a wait long enough for all 20 concurrent
callers to be queued, every caller receives a counter value in the range 1..20
and every received value is strictly below 20 (the counter only reaches 4), so
at least one dispatched batch had size greater than one. -/
theorem counter_aggregation_bounded :
    (runCounter 5 20).length = 20 ∧
    (∀ v ∈ runCounter 5 20, 1 ≤ v ∧ v ≤ 20 ∧ v < 20) ∧
    (∃ b ∈ formBatches 5 (List.replicate 20 (0 : Nat)), 1 < b.length) := by
  refine ⟨rfl, by decide, by decide⟩

/-- Witness for C1: the first caller's value 1 is in range and below 20. -/
theorem counter_aggregation_bounded_witness : 1 ≤ 1 ∧ 1 ≤ 20 ∧ 1 < 20 :=
  counter_aggregation_bounded.2.1 1 (by decide)

/-- C3: scalar-mode failures are broadcast: if the user function raises, every
caller in the batch fails with that error; if it returns a non-list, or a list
whose length differs from the batch size, every caller fails with the
shape-mismatch error; in each of these cases no caller observes a success. -/
theorem scalar_failure_broadcast {β ρ : Type} (f : List β → UserReturn ρ) (batch : List β) :
    (∀ e : Err, f batch = .raised e →
        dispatchScalar f batch = batch.map (fun _ => .failure e)) ∧
    (f batch = .returned .notAList →
        dispatchScalar f batch = batch.map (fun _ => .failure .shapeMismatch)) ∧
    (∀ rs : List ρ, f batch = .returned (.list rs) → rs.length ≠ batch.length →
        dispatchScalar f batch = batch.map (fun _ => .failure .shapeMismatch)) ∧
    (∀ (e : Err) (r : ρ),
        Outcome.success r ∉ batch.map (fun _ => (Outcome.failure e : Outcome ρ))) := by
  refine ⟨?_, ?_, ?_, ?_⟩
  · intro e he
    simp [dispatchScalar, he]
  · intro he
    simp [dispatchScalar, he]
  · intro rs he hne
    simp [dispatchScalar, he, hne]
  · intro e r hmem
    rcases List.mem_map.1 hmem with ⟨x, _, hx⟩
    exact Outcome.noConfusion hx

/-- Witness for C3: the test function returning the non-list `len(requests)`
on a batch of three requests fails all three callers with a shape mismatch. -/
theorem scalar_failure_broadcast_witness :
    dispatchScalar (fun _ : List Nat => UserReturn.returned (RetVal.notAList : RetVal Nat))
        [1, 2, 3] =
      [.failure .shapeMismatch, .failure .shapeMismatch, .failure .shapeMismatch] := by
  have h := (scalar_failure_broadcast
    (fun _ : List Nat => UserReturn.returned (RetVal.notAList : RetVal Nat)) [1, 2, 3]).2.1 rfl
  simpa using h

/-- C6: with max_batch_size 3 and timeout 1000, a held prefix of two requests
is never dispatched before the timeout has elapsed, while a prefix of three is
dispatched at any time; the dispatched batch of three returns each caller its
own input, in enqueue order. -/
theorem full_batch_dispatches_without_timeout :
    (∀ now : Nat, now < 1000 → shouldDispatch 3 1000 0 now 2 = false) ∧
    (∀ now : Nat, shouldDispatch 3 1000 0 now 3 = true) ∧
    dispatchScalar echoOrRaise ["hi1", "hi2", "hi3"] =
      [.success "hi1", .success "hi2", .success "hi3"] := by
  refine ⟨?_, ?_, rfl⟩
  · intro now h
    simp [shouldDispatch]
    omega
  · intro now
    simp [shouldDispatch]

/-- Witness for C6: at time 500, two held requests are not dispatched but three
are. -/
theorem full_batch_dispatches_without_timeout_witness :
    shouldDispatch 3 1000 0 500 2 = false ∧ shouldDispatch 3 1000 0 500 3 = true :=
  ⟨full_batch_dispatches_without_timeout.1 500 (by decide),
   full_batch_dispatches_without_timeout.2.1 500⟩

/-- C7: with timeout 0 a lone request is dispatched immediately as a batch of
size one, and two requests arriving while that dispatch executes form the next
batch together, so both observe the shared outcome of their batch (here, the
division by zero triggered by the request carrying "raise"). -/
theorem zero_timeout_prefix_dispatch :
    runLoop echoOrRaise 2 ["hi"] [] = [(["hi"], [.success "hi"])] ∧
    runLoop echoOrRaise 2 ["hi1"] [["hi2", "raise"]] =
      [(["hi1"], [.success "hi1"]),
       (["hi2", "raise"], [.failure .zeroDivision, .failure .zeroDivision])] :=
  ⟨rfl, rfl⟩

/-- C9: a failed batch does not terminate the batcher: the batches the loop
forms are independent of the user function (so of any failures it produces),
and concretely a call enqueued after a batch that raised is dispatched and
completes normally. -/
theorem failed_batch_loop_continues :
    (∀ (f g : List String → UserReturn String) (mbs : Nat) (q : List String)
        (arr : List (List String)),
        (runLoop f mbs q arr).map Prod.fst = (runLoop g mbs q arr).map Prod.fst) ∧
    runLoop echoOrRaise 2 ["raise"] [["hi1"]] =
      [(["raise"], [.failure .zeroDivision]), (["hi1"], [.success "hi1"])] := by
  refine ⟨?_, rfl⟩
  intro f g mbs q arr
  induction arr generalizing q with
  | nil => simp [runLoop, List.map_map, Function.comp]
  | cons a rest ih =>
      cases q with
      | nil => simpa [runLoop] using ih a
      | cons x q => simp [runLoop, ih]

/-- C8: decoration-time validation: a non-async target is a type error whose
message mentions "async def"; max_batch_size 0 is a value error; the
non-integral 1.1 is a type error while the integer-valued 1.0 is accepted;
batch_wait_timeout_s equal to -0.1 is a value error and the string "a" is a
type error; a zero timeout, int or float, is accepted. -/
theorem decorator_validation_cases :
    validateBatchConfig false (.int 10) (.int 0) =
      .error (.typeError ("functions decorated with serve.batch must be " ++ "async def")) ∧
    isValueError (validateBatchConfig true (.int 0) (.int 0)) = true ∧
    isTypeError (validateBatchConfig true (.float (Rat.mk' 11 10)) (.int 0)) = true ∧
    validateBatchConfig true (.float (Rat.mk' 1 1)) (.int 0) = .ok (1, 0) ∧
    isValueError (validateBatchConfig true (.int 10) (.float (Rat.mk' (-1) 10))) = true ∧
    isTypeError (validateBatchConfig true (.int 10) (.str "a")) = true ∧
    validateBatchConfig true (.int 10) (.int 0) = .ok (10, 0) ∧
    validateBatchConfig true (.int 10) (.float (Rat.mk' 0 1)) = .ok (10, 0) := by
  refine ⟨rfl, rfl, rfl, rfl, rfl, rfl, rfl, rfl⟩

/-- C2 counterexample: when one caller passes both values positionally while
the other passes both by keyword, the batch fails with a positional-arity
mismatch instead of returning the two pairs. -/
theorem args_kwargs_mixed_forms_counterexample :
    dispatchPair [CallArgs.mk ["hi1", "hi2"] [],
        CallArgs.mk [] [("key1", "hi3"), ("key2", "hi4")]] ≠
      [.success ("hi1", "hi2"), .success ("hi3", "hi4")] := by
  decide

/-- C2 amended: with both concurrent callers using the same calling convention
— both positional, both by keyword, both mixed (first value positional, second
by keyword), or both with keywords in reversed order — the first caller
receives ("hi1", "hi2") and the second ("hi3", "hi4"); when one caller is
entirely positional and the other entirely by keyword, the positional-arity
check fails and both callers receive the per-batch arity-mismatch failure
instead. -/
theorem args_kwargs_parity_amended :
    dispatchPair [CallArgs.mk ["hi1", "hi2"] [], CallArgs.mk ["hi3", "hi4"] []] =
      [.success ("hi1", "hi2"), .success ("hi3", "hi4")] ∧
    dispatchPair [CallArgs.mk ([] : List String) [("key1", "hi1"), ("key2", "hi2")],
        CallArgs.mk [] [("key1", "hi3"), ("key2", "hi4")]] =
      [.success ("hi1", "hi2"), .success ("hi3", "hi4")] ∧
    dispatchPair [CallArgs.mk ["hi1"] [("key2", "hi2")],
        CallArgs.mk ["hi3"] [("key2", "hi4")]] =
      [.success ("hi1", "hi2"), .success ("hi3", "hi4")] ∧
    dispatchPair [CallArgs.mk ([] : List String) [("key2", "hi2"), ("key1", "hi1")],
        CallArgs.mk [] [("key2", "hi4"), ("key1", "hi3")]] =
      [.success ("hi1", "hi2"), .success ("hi3", "hi4")] ∧
    dispatchPair [CallArgs.mk ["hi1", "hi2"] [],
        CallArgs.mk [] [("key1", "hi3"), ("key2", "hi4")]] =
      [.failure .arityMismatch, .failure .arityMismatch] :=
  ⟨rfl, rfl, rfl, rfl, rfl⟩

/-- C4: in streaming mode, when the user function yields lists each of length
equal to the batch size and finishes normally, caller i of the batch receives
exactly one item per yield — the j-th item being element i of the j-th yielded
list, in yield order — and its sequence terminates normally. -/
theorem streaming_routes_elements {ρ : Type} (b i : Nat) (run : GenRun ρ)
    (hlen : ∀ y ∈ run.yields, y.length = b) (hr : run.raised = none) (hi : i < b) :
    (callerStream b run i).error = none ∧
    (callerStream b run i).items.length = run.yields.length ∧
    ∀ (j : Nat), (callerStream b run i).items[j]? = run.yields[j]?.bind (fun y => y[i]?) := by
  have hroute := routeYields_of_good b run.yields hlen
  have hcs : callerStream b run i = CallerStream.mk (column i run.yields) none := by
    simp [callerStream, consumeGen, hroute, hr]
  obtain ⟨h1, h2⟩ := column_spec i run.yields (fun y hy => by
    have := hlen y hy
    omega)
  rw [hcs]
  exact ⟨rfl, h1, h2⟩

/-- Witness for C4: two callers, two yields; caller 0 receives both of its
elements in order and its sequence ends normally. -/
theorem streaming_routes_elements_witness :
    (callerStream 2 (GenRun.mk [[10, 20], [11, 21]] none) 0).error = none ∧
    (callerStream 2 (GenRun.mk [[10, 20], [11, 21]] none) 0).items.length = 2 ∧
    (callerStream 2 (GenRun.mk [[10, 20], [11, 21]] none) 0).items[0]? = some 10 := by
  have h := streaming_routes_elements 2 0 (GenRun.mk [[10, 20], [11, 21]] none)
    (by decide) rfl (by decide)
  refine ⟨h.1, h.2.1, ?_⟩
  rw [h.2.2 0]
  rfl

/-- C5: in streaming mode a mid-sequence failure is broadcast at the same
index to every caller: if the user function raises after its (well-shaped)
yields, each caller of the batch receives one item per yield and then the
raised error; if instead the next yield has the wrong length, each caller
receives one item per preceding yield and then the shape-mismatch error; in
both cases the caller's sequence then terminates. -/
theorem streaming_failure_same_index {ρ : Type} (b i : Nat) (hi : i < b) :
    (∀ (ys : List (List ρ)) (e : Err), (∀ y ∈ ys, y.length = b) →
        callerStream b (GenRun.mk ys (some e)) i = CallerStream.mk (column i ys) (some e) ∧
        (column i ys).length = ys.length ∧
        ∀ (j : Nat), (column i ys)[j]? = ys[j]?.bind (fun y => y[i]?)) ∧
    (∀ (pre tail : List (List ρ)) (bad : List ρ) (r : Option Err),
        (∀ y ∈ pre, y.length = b) → bad.length ≠ b →
        callerStream b (GenRun.mk (pre ++ bad :: tail) r) i =
          CallerStream.mk (column i pre) (some Err.shapeMismatch) ∧
        (column i pre).length = pre.length ∧
        ∀ (j : Nat), (column i pre)[j]? = pre[j]?.bind (fun y => y[i]?)) := by
  constructor
  · intro ys e h
    have hroute := routeYields_of_good b ys h
    obtain ⟨h1, h2⟩ := column_spec i ys (fun y hy => by
      have := h y hy
      omega)
    refine ⟨?_, h1, h2⟩
    simp [callerStream, consumeGen, hroute]
  · intro pre tail bad r h hbad
    have hroute := routeYields_stops_at_bad b pre tail bad h hbad
    obtain ⟨h1, h2⟩ := column_spec i pre (fun y hy => by
      have := h y hy
      omega)
    refine ⟨?_, h1, h2⟩
    simp [callerStream, consumeGen, hroute]

/-- Witness for C5: two callers; a run that raises after two yields gives
caller 0 its two items and then the runtime error, and a run whose third yield
has length four instead of two gives caller 0 its two items and then the
shape-mismatch error. -/
theorem streaming_failure_same_index_witness :
    callerStream 2 (GenRun.mk [[1, 2], [3, 4]] (some (Err.runtime "Testing error"))) 0 =
      CallerStream.mk [1, 3] (some (Err.runtime "Testing error")) ∧
    callerStream 2 (GenRun.mk [[1, 2], [3, 4], [1, 2, 3, 4], [5, 6]] none) 0 =
      CallerStream.mk [1, 3] (some Err.shapeMismatch) := by
  have h1 := ((streaming_failure_same_index 2 0 (by decide)).1 [[1, 2], [3, 4]]
    (Err.runtime "Testing error") (by decide)).1
  have h2 := ((streaming_failure_same_index 2 0 (by decide)).2 [[1, 2], [3, 4]]
    [[5, 6]] [1, 2, 3, 4] none (by decide) (by decide)).1
  exact ⟨h1, h2⟩

/-- C10: a streaming user function that yields zero lists and finishes
normally gives every caller of any batch an empty sequence that terminates
normally, with no items and no error. -/
theorem empty_generator_normal_end {ρ : Type} (b i : Nat) :
    callerStream b (GenRun.mk ([] : List (List ρ)) none) i = CallerStream.mk [] none :=
  rfl

end Batching
